import Mathlib

/-!
Shallow embedding of the series-generation logic of the Norilsk probe-tracking
web application (client script, `parseProbeName` / `generateSeriesProbes` /
`updateSeriesPreview` / `createSeries`).

Strings are modelled as `List Char` (`Str`).  JavaScript numbers are modelled
by `JSNum`: `nan` for NaN, `inf` for the two infinities and `num q` for a
finite value, idealised as an exact rational (every numeric literal appearing
in the code and in the spec examples is exactly representable, so the
idealisation is faithful on all inputs considered here).
-/

abbrev Str := List Char

/-- Coerce a Lean string literal to the `List Char` model. -/
def str (s : String) : Str := s.data

/-- The characters stripped by JavaScript `String.prototype.trim` and skipped
by `parseFloat`: ECMAScript WhiteSpace and LineTerminator code points. -/
def isJsSpace (c : Char) : Bool :=
  c = ' ' || c = '\t' || c = '\n' || c = '\r' ||
  c.toNat = 0xB || c.toNat = 0xC || c.toNat = 0xA0 ||
  c.toNat = 0xFEFF || c.toNat = 0x2028 || c.toNat = 0x2029

/-- JavaScript `String.prototype.trim`. -/
def trimJs (s : Str) : Str :=
  ((s.dropWhile isJsSpace).reverse.dropWhile isJsSpace).reverse

/-- A JavaScript number: NaN, ±Infinity, or a finite value (idealised as ℚ). -/
inductive JSNum where
  | nan : JSNum
  | inf (neg : Bool) : JSNum
  | num (q : ℚ) : JSNum
deriving DecidableEq, Repr

/-- Parse a maximal run of ASCII digits; returns (value, digit count, rest). -/
def parseDigits : Str → Nat × Nat × Str
  | [] => (0, 0, [])
  | c :: rest =>
    if c.isDigit then
      let (v, n, r) := parseDigits rest
      ((c.toNat - 48) * 10 ^ n + v, n + 1, r)
    else (0, 0, c :: rest)

/-- JavaScript `parseFloat`: skip leading whitespace, then read the longest
prefix that is a signed decimal literal (`±`, digits, optional `.` and
fraction digits, optional exponent, or `Infinity`); NaN when no prefix
matches.  ECMAScript §19.2.4. -/
def jsParseFloat (s : Str) : JSNum :=
  let s1 := s.dropWhile isJsSpace
  let signRest : Bool × Str :=
    match s1 with
    | '-' :: t => (true, t)
    | '+' :: t => (false, t)
    | _ => (false, s1)
  let neg := signRest.1
  let s2 := signRest.2
  if (str "Infinity").isPrefixOf s2 then .inf neg
  else
    let (ip, ni, s3) := parseDigits s2
    let fracRest : Nat × Nat × Str :=
      match s3 with
      | '.' :: t => parseDigits t
      | _ => (0, 0, s3)
    let (fp, nf, s4) := fracRest
    if ni = 0 ∧ nf = 0 then .nan
    else
      let expPart : Bool × Nat :=
        match s4 with
        | e :: t =>
          if e = 'e' ∨ e = 'E' then
            let esignRest : Bool × Str :=
              match t with
              | '-' :: u => (true, u)
              | '+' :: u => (false, u)
              | _ => (false, t)
            let (ev, ne, _) := parseDigits esignRest.2
            if ne = 0 then (false, 0) else (esignRest.1, ev)
          else (false, 0)
        | [] => (false, 0)
      let numerAbs : Nat := (ip * 10 ^ nf + fp) * (if expPart.1 then 1 else 10 ^ expPart.2)
      let denom : Nat := 10 ^ nf * (if expPart.1 then 10 ^ expPart.2 else 1)
      let numer : Int := if neg then -(numerAbs : Int) else (numerAbs : Int)
      .num (mkRat numer denom)

/-- JavaScript falsiness of a number: NaN, 0 and -0 are falsy. -/
def jsFalsy : JSNum → Bool
  | .nan => true
  | .inf _ => false
  | .num q => q = 0

/-- JavaScript `x || d` on numbers: `d` when `x` is falsy, else `x`. -/
def jsOrDefault (x d : JSNum) : JSNum :=
  if jsFalsy x then d else x

/-- The object returned by `parseProbeName` on success. -/
structure ParsedName where
  fullName : Str
  methodNumber : Str
  repeatNumber : Str
  isValid : Bool
deriving DecidableEq, Repr

/-- The message of the error thrown by `parseProbeName`
(`InvalidNameFormat`). -/
def errInvalidName : Str :=
  str "Неверный формат названия. Используйте: T2-\x7bномер\x7dC\x7bповторность\x7d"

/-- The part of `parseProbeName` after the literal prefix `T2-`: the regex
fragment `(\d+)C(\d+)$`.  Maximal-munch digit runs coincide with the regex's
backtracking search here because a digit run can never absorb the literal
`C` or extend past the anchor. -/
def parseTail (rest : Str) : Except Str (Str × Str) :=
  if rest.takeWhile Char.isDigit = [] then .error errInvalidName
  else
    match rest.dropWhile Char.isDigit with
    | c :: rest2 =>
      if c = 'C' then
        if rest2.takeWhile Char.isDigit = [] then .error errInvalidName
        else if rest2.dropWhile Char.isDigit = [] then
          .ok (rest.takeWhile Char.isDigit, rest2.takeWhile Char.isDigit)
        else .error errInvalidName
      else .error errInvalidName
    | [] => .error errInvalidName

/-- `parseProbeName` from the client script: match the input against the
anchored regex `^T2-(\d+)C(\d+)$`; on success return the full name and the
two captured digit groups verbatim, otherwise throw `InvalidNameFormat`. -/
def parseProbeName (baseName : Str) : Except Str ParsedName :=
  match baseName with
  | t :: two :: dash :: rest =>
    if t = 'T' ∧ two = '2' ∧ dash = '-' then
      match parseTail rest with
      | .ok (m, r) => .ok ⟨baseName, m, r, true⟩
      | .error e => .error e
    else .error errInvalidName
  | _ => .error errInvalidName

/-- `stripPat pat s` is `some rest` when `s = pat ++ rest`, else `none`. -/
def stripPat : Str → Str → Option Str
  | [], s => some s
  | _ :: _, [] => none
  | p :: ps, c :: cs => if p = c then stripPat ps cs else none

/-- Worker for `replaceAll`, structurally recursive on a fuel argument.
Each step consumes at least one character of the input, so any fuel of at
least the input's length computes the same result. -/
def replaceAllFuel (pat repl : Str) : Nat → Str → Str
  | _, [] => []
  | 0, s => s
  | fuel + 1, c :: rest =>
    match stripPat pat (c :: rest) with
    | some rem => repl ++ replaceAllFuel pat repl fuel rem
    | none => c :: replaceAllFuel pat repl fuel rest

/-- JavaScript `String.prototype.replace` with a global literal pattern:
scan left to right, replace each non-overlapping occurrence of `pat` by
`repl` (the replacement is not rescanned). -/
def replaceAll (pat repl s : Str) : Str :=
  replaceAllFuel pat repl s.length s

/-- `template.replace(/\x7bm\x7d/g, methodNumber).replace(/\x7br\x7d/g, repeatNumber)`. -/
def substTemplate (methodNumber repeatNumber template : Str) : Str :=
  replaceAll (str "\x7br\x7d") repeatNumber
    (replaceAll (str "\x7bm\x7d") methodNumber template)

/-- The fixed, order-significant template table of `generateSeriesProbes`. -/
def templates : List Str :=
  [ str "T2-\x7bm\x7dA\x7br\x7d",
    str "T2-\x7bm\x7dB\x7br\x7d",
    str "T2-L\x7bm\x7dC\x7br\x7d",
    str "T2-L\x7bm\x7dA\x7br\x7d",
    str "T2-L\x7bm\x7dB\x7br\x7d",
    str "T2-L\x7bm\x7dP\x7bm\x7dC\x7br\x7d",
    str "T2-L\x7bm\x7dP\x7bm\x7dA\x7br\x7d",
    str "T2-L\x7bm\x7dP\x7bm\x7dB\x7br\x7d",
    str "T2-L\x7bm\x7dP\x7bm\x7dF\x7bm\x7dC\x7br\x7d",
    str "T2-L\x7bm\x7dP\x7bm\x7dF\x7bm\x7dA\x7br\x7d",
    str "T2-L\x7bm\x7dP\x7bm\x7dF\x7bm\x7dB\x7br\x7d",
    str "T2-L\x7bm\x7dP\x7bm\x7dF\x7bm\x7dD\x7br\x7d",
    str "T2-L\x7bm\x7dP\x7bm\x7dF\x7bm\x7dN\x7bm\x7dC\x7br\x7d",
    str "T2-L\x7bm\x7dP\x7bm\x7dF\x7bm\x7dN\x7bm\x7dA\x7br\x7d",
    str "T2-L\x7bm\x7dP\x7bm\x7dF\x7bm\x7dN\x7bm\x7dB\x7br\x7d",
    str "T2-L\x7bm\x7dP\x7bm\x7dF\x7bm\x7dN\x7bm\x7dE\x7br\x7d" ]

/-- One record of the array built by `generateSeriesProbes`.  `created_at`
is `new Date().toISOString()`; the clock is passed in explicitly. -/
structure SeriesProbeDraft where
  name : Str
  sample_mass : JSNum
  V_ml : JSNum
  method_number : Str
  is_series : Bool
  series_base : Str
  tags : List Str
  status_id : Nat
  priority : Nat
  Fe : ℚ
  Ni : ℚ
  Cu : ℚ
  created_at : Str
deriving DecidableEq, Repr

instance : Inhabited SeriesProbeDraft :=
  ⟨⟨[], .nan, .nan, [], false, [], [], 0, 0, 0, 0, 0, []⟩⟩

/-- `generateSeriesProbes(baseName, methodNumber, repeatNumber, mass, volume)`
from the client script, with the clock (`new Date().toISOString()`) passed in
as `now`. -/
def generateSeriesProbes (baseName methodNumber repeatNumber mass volume now : Str) :
    List SeriesProbeDraft :=
  templates.map fun template =>
    { name := substTemplate methodNumber repeatNumber template
      sample_mass := jsOrDefault (jsParseFloat mass) (.num 1)
      V_ml := jsOrDefault (jsParseFloat volume) (.num 100)
      method_number := methodNumber
      is_series := true
      series_base := baseName
      tags := [str "методика_" ++ methodNumber, str "серия_" ++ baseName]
      status_id := 1
      priority := 1
      Fe := 0
      Ni := 0
      Cu := 0
      created_at := now }

/-- Outcome of `updateSeriesPreview`: the prompt shown for an empty input,
the error text rendered by the catch branch, or the rendered probe list. -/
inductive PreviewOutcome where
  | emptyPrompt : PreviewOutcome
  | showError (msg : Str) : PreviewOutcome
  | showProbes (probes : List SeriesProbeDraft) : PreviewOutcome
deriving DecidableEq, Repr

/-- `updateSeriesPreview` from the client script, over the three form field
values and the clock: guard on the trimmed base name being empty, then parse
and expand inside try/catch (only `parseProbeName` can throw). -/
def updateSeriesPreview (baseName mass volume now : Str) : PreviewOutcome :=
  if trimJs baseName = [] then .emptyPrompt
  else
    match parseProbeName (trimJs baseName) with
    | .error e => .showError e
    | .ok parsed =>
      .showProbes (generateSeriesProbes parsed.fullName parsed.methodNumber
        parsed.repeatNumber mass volume now)

/-- The JSON body POSTed to `/api/add_series` by `createSeries`. -/
structure SeriesRequest where
  base_name : Str
  method_number : Str
  repeat_number : Str
  mass : JSNum
  volume : JSNum
  probes : List SeriesProbeDraft
deriving DecidableEq, Repr

/-- Outcome of `createSeries` up to the network call: the alert for an empty
base name, the caught `InvalidNameFormat` error, or the request body sent. -/
inductive CreateOutcome where
  | emptyAlert : CreateOutcome
  | errorAlert (msg : Str) : CreateOutcome
  | request (body : SeriesRequest) : CreateOutcome
deriving DecidableEq, Repr

/-- `createSeries` from the client script, modelled up to the construction of
the POST body: trim the base name, guard on empty, parse, expand, and build
the body with bare `parseFloat(mass)` / `parseFloat(volume)` at top level. -/
def createSeries (baseNameRaw mass volume now : Str) : CreateOutcome :=
  if trimJs baseNameRaw = [] then .emptyAlert
  else
    match parseProbeName (trimJs baseNameRaw) with
    | .error e => .errorAlert e
    | .ok parsed =>
      .request
        { base_name := parsed.fullName
          method_number := parsed.methodNumber
          repeat_number := parsed.repeatNumber
          mass := jsParseFloat mass
          volume := jsParseFloat volume
          probes := generateSeriesProbes parsed.fullName parsed.methodNumber
            parsed.repeatNumber mass volume now }

/-- How `JSON.stringify` serialises a number: NaN and the infinities become
`null` (modelled as `none`), finite values are emitted as numbers. -/
def jsonNum : JSNum → Option ℚ
  | .num q => some q
  | .nan => none
  | .inf _ => none

/-- The spec's acceptance condition, written from the spec's own words: the
input matches `^T2-(\d+)C(\d+)$` — prefix `T2-`, one or more digits, literal
`C`, one or more digits, nothing else before or after. -/
def specPatternT2 (s : Str) : Prop :=
  ∃ m r : Str, m ≠ [] ∧ (∀ c ∈ m, c.isDigit) ∧ r ≠ [] ∧ (∀ c ∈ r, c.isDigit) ∧
    s = str "T2-" ++ m ++ 'C' :: r

/-- Blank out the only clock-dependent field of a draft. -/
def eraseTimestamp (d : SeriesProbeDraft) : SeriesProbeDraft :=
  { d with created_at := [] }

/-! ## Helper lemmas -/

lemma takeWhile_digit_front (m : Str) (c : Char) (rest : Str)
    (hm : ∀ x ∈ m, x.isDigit) (hc : c.isDigit = false) :
    (m ++ c :: rest).takeWhile Char.isDigit = m := by
  induction m with
  | nil => simp [List.takeWhile_cons, hc]
  | cons a l ih =>
    have ha : a.isDigit := hm a (List.mem_cons_self a l)
    simp only [List.cons_append, List.takeWhile_cons, ha, if_true]
    rw [ih fun x hx => hm x (List.mem_cons_of_mem a hx)]

lemma dropWhile_digit_front (m : Str) (c : Char) (rest : Str)
    (hm : ∀ x ∈ m, x.isDigit) (hc : c.isDigit = false) :
    (m ++ c :: rest).dropWhile Char.isDigit = c :: rest := by
  induction m with
  | nil => simp [List.dropWhile_cons, hc]
  | cons a l ih =>
    have ha : a.isDigit := hm a (List.mem_cons_self a l)
    simp only [List.cons_append, List.dropWhile_cons, ha, if_true]
    exact ih fun x hx => hm x (List.mem_cons_of_mem a hx)

lemma parseTail_ok_of_shape (m r : Str) (hm1 : m ≠ []) (hm : ∀ c ∈ m, c.isDigit)
    (hr1 : r ≠ []) (hr : ∀ c ∈ r, c.isDigit) :
    parseTail (m ++ 'C' :: r) = .ok (m, r) := by
  have hC : ('C').isDigit = false := by decide
  unfold parseTail
  rw [takeWhile_digit_front m 'C' r hm hC, dropWhile_digit_front m 'C' r hm hC]
  rw [if_neg hm1]
  simp only [if_pos rfl]
  rw [List.takeWhile_eq_self_iff.mpr hr, List.dropWhile_eq_nil_iff.mpr fun c hc => hr c hc]
  simp [hr1]

lemma parseTail_ok_shape (rest m r : Str) (h : parseTail rest = .ok (m, r)) :
    m ≠ [] ∧ (∀ c ∈ m, c.isDigit) ∧ r ≠ [] ∧ (∀ c ∈ r, c.isDigit) ∧
      rest = m ++ 'C' :: r := by
  unfold parseTail at h
  split at h
  · exact absurd h (by simp)
  · rename_i hd1
    split at h
    · rename_i c rest2 hsplit
      split at h
      · rename_i hc
        split at h
        · exact absurd h (by simp)
        · rename_i hd2
          split at h
          · rename_i hr2
            simp only [Except.ok.injEq, Prod.mk.injEq] at h
            obtain ⟨rfl, rfl⟩ := h
            subst hc
            refine ⟨hd1, fun c hc => List.mem_takeWhile_imp hc, hd2,
              fun c hc => List.mem_takeWhile_imp hc, ?_⟩
            have h2 : rest2.takeWhile Char.isDigit ++ rest2.dropWhile Char.isDigit = rest2 :=
              List.takeWhile_append_dropWhile Char.isDigit rest2
            rw [hr2, List.append_nil] at h2
            rw [h2, ← hsplit]
            exact (List.takeWhile_append_dropWhile Char.isDigit rest).symm
          · exact absurd h (by simp)
      · exact absurd h (by simp)
    · exact absurd h (by simp)

lemma parseTail_error_msg (rest : Str) (e : Str) (h : parseTail rest = .error e) :
    e = errInvalidName := by
  unfold parseTail at h
  split at h
  · simp only [Except.error.injEq] at h
    exact h.symm
  · split at h
    · split at h
      · split at h
        · simp only [Except.error.injEq] at h
          exact h.symm
        · split at h
          · exact absurd h (by simp)
          · simp only [Except.error.injEq] at h
            exact h.symm
      · simp only [Except.error.injEq] at h
        exact h.symm
    · simp only [Except.error.injEq] at h
      exact h.symm

lemma parseProbeName_cons (rest : Str) :
    parseProbeName ('T' :: '2' :: '-' :: rest) =
      match parseTail rest with
      | .ok (m, r) => .ok ⟨'T' :: '2' :: '-' :: rest, m, r, true⟩
      | .error e => .error e := by
  simp [parseProbeName]


lemma parseProbeName_eval (a b c : Char) (rest : Str) :
    parseProbeName (a :: b :: c :: rest) =
      if a = 'T' ∧ b = '2' ∧ c = '-' then
        match parseTail rest with
        | .ok (m, r) => .ok ⟨a :: b :: c :: rest, m, r, true⟩
        | .error e => .error e
      else .error errInvalidName := rfl

lemma parseProbeName_ok_shape (s : Str) (p : ParsedName) (h : parseProbeName s = .ok p) :
    p.fullName = s ∧ p.isValid = true ∧ p.methodNumber ≠ [] ∧
      (∀ c ∈ p.methodNumber, c.isDigit) ∧ p.repeatNumber ≠ [] ∧
      (∀ c ∈ p.repeatNumber, c.isDigit) ∧
      s = str "T2-" ++ p.methodNumber ++ 'C' :: p.repeatNumber := by
  match s with
  | [] => exact Except.noConfusion h
  | [a] => exact Except.noConfusion h
  | [a, b] => exact Except.noConfusion h
  | a :: b :: c :: rest =>
    rw [parseProbeName_eval] at h
    split at h
    · rename_i hcond
      obtain ⟨rfl, rfl, rfl⟩ := hcond
      cases htail : parseTail rest with
      | ok mr =>
        obtain ⟨m, r⟩ := mr
        rw [htail] at h
        simp only [Except.ok.injEq] at h
        subst h
        obtain ⟨hm1, hm, hr1, hr, hrest⟩ := parseTail_ok_shape rest m r htail
        exact ⟨rfl, rfl, hm1, hm, hr1, hr, by rw [hrest]; rfl⟩
      | error e =>
        rw [htail] at h
        exact Except.noConfusion h
    · exact Except.noConfusion h

lemma parseProbeName_error_msg (s : Str) (e : Str) (h : parseProbeName s = .error e) :
    e = errInvalidName := by
  match s with
  | [] => exact (Except.error.inj h).symm
  | [a] => exact (Except.error.inj h).symm
  | [a, b] => exact (Except.error.inj h).symm
  | a :: b :: c :: rest =>
    rw [parseProbeName_eval] at h
    split at h
    · cases htail : parseTail rest with
      | ok mr =>
        obtain ⟨m, r⟩ := mr
        rw [htail] at h
        exact Except.noConfusion h
      | error e2 =>
        rw [htail] at h
        rw [← Except.error.inj h]
        exact parseTail_error_msg rest e2 htail
    · exact (Except.error.inj h).symm

lemma parseProbeName_of_shape (m r : Str) (hm1 : m ≠ []) (hm : ∀ c ∈ m, c.isDigit)
    (hr1 : r ≠ []) (hr : ∀ c ∈ r, c.isDigit) :
    parseProbeName (str "T2-" ++ m ++ 'C' :: r) =
      .ok ⟨str "T2-" ++ m ++ 'C' :: r, m, r, true⟩ := by
  show parseProbeName ('T' :: '2' :: '-' :: (m ++ 'C' :: r)) =
    .ok ⟨'T' :: '2' :: '-' :: (m ++ 'C' :: r), m, r, true⟩
  rw [parseProbeName_cons, parseTail_ok_of_shape m r hm1 hm hr1 hr]

lemma replaceAll_append_skip (p0 : Char) (pt repl : Str) (a b : Str)
    (h : ∀ c ∈ a, c ≠ p0) :
    replaceAll (p0 :: pt) repl (a ++ b) = a ++ replaceAll (p0 :: pt) repl b := by
  induction a with
  | nil => rfl
  | cons c a ih =>
    have hc : ¬ (p0 = c) := fun hpc => (h c (List.mem_cons_self c a)) hpc.symm
    show replaceAllFuel (p0 :: pt) repl ((a ++ b).length + 1) (c :: (a ++ b)) = _
    rw [replaceAllFuel]
    simp only [stripPat, if_neg hc]
    show c :: replaceAll (p0 :: pt) repl (a ++ b) = _
    rw [ih fun x hx => h x (List.mem_cons_of_mem c hx)]
    rfl

lemma replaceAll_token_r (r a : Str) (h : ∀ c ∈ a, c ≠ '{') :
    replaceAll (str "\x7br\x7d") r (a ++ str "\x7br\x7d") = a ++ r := by
  rw [show (str "\x7br\x7d") = '{' :: ('r' :: '}' :: []) from rfl]
  rw [replaceAll_append_skip '{' ('r' :: '}' :: []) r a _ h]
  show a ++ (r ++ replaceAllFuel ('{' :: 'r' :: '}' :: []) r 2 []) = a ++ r
  rw [show replaceAllFuel ('{' :: 'r' :: '}' :: []) r 2 [] = [] from rfl, List.append_nil]

lemma digit_ne_brace {c : Char} (hc : c.isDigit) : c ≠ '{' := by
  intro h
  rw [h] at hc
  exact absurd hc (by decide)

lemma parseTail_fail_nonC (m rest : Str) (hm : ∀ x ∈ m, x.isDigit) (c : Char)
    (hc : c.isDigit = false) (hcC : c ≠ 'C') :
    parseTail (m ++ c :: rest) = .error errInvalidName := by
  unfold parseTail
  rw [takeWhile_digit_front m c rest hm hc, dropWhile_digit_front m c rest hm hc]
  by_cases hm1 : m = []
  · rw [if_pos hm1]
  · rw [if_neg hm1]
    simp [hcC]

lemma parseTail_fail_head (c : Char) (rest : Str) (hc : c.isDigit = false) :
    parseTail (c :: rest) = .error errInvalidName := by
  unfold parseTail
  rw [show (c :: rest).takeWhile Char.isDigit = [] from by simp [List.takeWhile_cons, hc]]
  rw [if_pos rfl]

lemma parse_fail_after_digits (m rest : Str) (hm : ∀ x ∈ m, x.isDigit)
    (c : Char) (hc : c.isDigit = false) (hcC : c ≠ 'C') :
    parseProbeName ('T' :: '2' :: '-' :: (m ++ c :: rest)) = .error errInvalidName := by
  rw [parseProbeName_cons, parseTail_fail_nonC m rest hm c hc hcC]

lemma parse_fail_L (rest : Str) :
    parseProbeName ('T' :: '2' :: '-' :: 'L' :: rest) = .error errInvalidName := by
  rw [parseProbeName_cons, parseTail_fail_head 'L' rest (by decide)]

lemma subst_L_shape (r tail : Str) :
    replaceAll (str "\x7br\x7d") r ('T' :: '2' :: '-' :: 'L' :: tail)
      = 'T' :: '2' :: '-' :: 'L' :: replaceAll (str "\x7br\x7d") r tail :=
  replaceAll_append_skip '{' ('r' :: '}' :: []) r ('T' :: '2' :: '-' :: 'L' :: []) tail
    (by decide)

lemma name_fail_of_L (m r t tail : Str)
    (hshape : replaceAll (str "\x7bm\x7d") m t = 'T' :: '2' :: '-' :: 'L' :: tail) :
    parseProbeName (substTemplate m r t) = .error errInvalidName := by
  unfold substTemplate
  rw [hshape, subst_L_shape]
  exact parse_fail_L _

lemma name_fail_of_AB (m r t : Str) (hm : ∀ c ∈ m, c.isDigit) (c : Char)
    (hc : c.isDigit = false) (hcC : c ≠ 'C') (hcb : c ≠ '{')
    (hshape : replaceAll (str "\x7bm\x7d") m t
      = 'T' :: '2' :: '-' :: (m ++ (c :: str "\x7br\x7d"))) :
    parseProbeName (substTemplate m r t) = .error errInvalidName := by
  unfold substTemplate
  rw [hshape]
  rw [show ('T' :: '2' :: '-' :: (m ++ (c :: str "\x7br\x7d")) : Str)
      = ('T' :: '2' :: '-' :: (m ++ [c])) ++ str "\x7br\x7d" from by simp]
  rw [replaceAll_token_r r ('T' :: '2' :: '-' :: (m ++ [c])) ?hnb]
  case hnb =>
    intro x hx
    simp only [List.mem_cons, List.mem_append, List.mem_singleton, List.not_mem_nil,
      or_false] at hx
    rcases hx with rfl | rfl | rfl | hx | rfl
    · decide
    · decide
    · decide
    · exact digit_ne_brace (hm x hx)
    · exact hcb
  rw [show (('T' :: '2' :: '-' :: (m ++ [c])) ++ r : Str)
      = 'T' :: '2' :: '-' :: ((m ++ [c]) ++ r) from rfl]
  rw [List.append_assoc, List.singleton_append]
  exact parse_fail_after_digits m r hm c hc hcC

/-! ## Claim theorems -/

/-- C1: `parseProbeName` succeeds exactly on inputs matching the anchored,
case-sensitive pattern `^T2-(\d+)C(\d+)$`, returning a `ParsedName` whose
`fullName` is the input and whose `methodNumber` and `repeatNumber` are the
two captured digit groups kept verbatim as strings; on every other input
(empty, wrong prefix, missing `C`, non-digits, partial or trailing text) it
fails with the `InvalidNameFormat` error. -/
theorem parseProbeName_matches_pattern_exactly (s : Str) :
    (∀ m r : Str, m ≠ [] → (∀ c ∈ m, c.isDigit) → r ≠ [] → (∀ c ∈ r, c.isDigit) →
      s = str "T2-" ++ m ++ 'C' :: r →
      parseProbeName s = .ok ⟨s, m, r, true⟩)
  ∧ (¬ specPatternT2 s → parseProbeName s = .error errInvalidName) := by
  constructor
  · intro m r hm1 hm hr1 hr hs
    rw [hs]
    exact parseProbeName_of_shape m r hm1 hm hr1 hr
  · intro hno
    cases hres : parseProbeName s with
    | ok p =>
      obtain ⟨-, -, hm1, hm, hr1, hr, hshape⟩ := parseProbeName_ok_shape s p hres
      exact absurd ⟨p.methodNumber, p.repeatNumber, hm1, hm, hr1, hr, hshape⟩ hno
    | error e =>
      rw [parseProbeName_error_msg s e hres]

/-- Witness for C1 at the concrete input `"T2-4C1"`. -/
theorem parseProbeName_matches_pattern_exactly_witness :
    parseProbeName (str "T2-4C1") = .ok ⟨str "T2-4C1", str "4", str "1", true⟩ :=
  (parseProbeName_matches_pattern_exactly (str "T2-4C1")).1 (str "4") (str "1")
    (by decide) (by decide) (by decide) (by decide) (by decide)

/-- C2: every generated draft name is the corresponding template with each
`\x7bm\x7d` replaced by `methodNumber` and each `\x7br\x7d` replaced by
`repeatNumber`; for base `"T2-4C1"` the sixteen names are as listed (in
particular drafts 0, 2, 8 and 15), and for `"T2-04C01"` the leading zeros
are used verbatim. -/
theorem generated_names_follow_templates (mass volume now : Str) :
    ((generateSeriesProbes (str "T2-4C1") (str "4") (str "1") mass volume now).map
        SeriesProbeDraft.name =
      [str "T2-4A1", str "T2-4B1", str "T2-L4C1", str "T2-L4A1", str "T2-L4B1",
       str "T2-L4P4C1", str "T2-L4P4A1", str "T2-L4P4B1",
       str "T2-L4P4F4C1", str "T2-L4P4F4A1", str "T2-L4P4F4B1", str "T2-L4P4F4D1",
       str "T2-L4P4F4N4C1", str "T2-L4P4F4N4A1", str "T2-L4P4F4N4B1",
       str "T2-L4P4F4N4E1"])
  ∧ ((generateSeriesProbes (str "T2-04C01") (str "04") (str "01") mass volume now).map
        SeriesProbeDraft.name)[0]? = some (str "T2-04A01")
  ∧ (∀ baseName m r : Str,
      (generateSeriesProbes baseName m r mass volume now).map SeriesProbeDraft.name =
        templates.map (substTemplate m r)) :=
  ⟨rfl, rfl, fun _ _ _ => rfl⟩

/-- C3: for every base name, method/repeat groups and arbitrary mass and
volume strings, `generateSeriesProbes` yields exactly 16 drafts, in the
fixed template order, and the name sequence is unaffected by the mass and
volume inputs. -/
theorem generateSeriesProbes_sixteen_fixed_order
    (baseName m r mass volume now mass2 volume2 : Str) :
    (generateSeriesProbes baseName m r mass volume now).length = 16
  ∧ (generateSeriesProbes baseName m r mass volume now).map SeriesProbeDraft.name =
      templates.map (substTemplate m r)
  ∧ (generateSeriesProbes baseName m r mass volume now).map SeriesProbeDraft.name =
      (generateSeriesProbes baseName m r mass2 volume2 now).map SeriesProbeDraft.name :=
  ⟨rfl, rfl, rfl⟩

/-- C8: with a fixed clock the output of `generateSeriesProbes` is a pure
function of its inputs, and two runs with different clocks agree on every
field except `created_at`, which is exactly the clock value. -/
theorem generateSeriesProbes_deterministic_mod_timestamp
    (baseName m r mass volume t1 t2 : Str) :
    (generateSeriesProbes baseName m r mass volume t1).map eraseTimestamp =
      (generateSeriesProbes baseName m r mass volume t2).map eraseTimestamp
  ∧ (generateSeriesProbes baseName m r mass volume t1).map SeriesProbeDraft.created_at =
      List.replicate 16 t1 :=
  ⟨rfl, rfl⟩

/-- C4 counterexample: the input `"0"` parses as the number 0, yet every
draft gets `sample_mass = 1.0`, because `parseFloat(mass) || 1.0` replaces
every falsy parse result — including a successfully parsed 0 — with the
default.  So the claim "substitute 1.0 only when the mass is absent or does
not parse" is false on the code. -/
theorem sampleMass_zero_not_kept :
    jsParseFloat (str "0") = .num 0
  ∧ (generateSeriesProbes (str "T2-4C1") (str "4") (str "1") (str "0") (str "50")
      []).map SeriesProbeDraft.sample_mass = List.replicate 16 (.num 1)
  ∧ JSNum.num 0 ≠ JSNum.num 1 := by
  refine ⟨by decide, by decide, by decide⟩

/-- C4 (amended): each draft's `sample_mass` is the parse of the mass input
unless that parse is absent, fails, or yields the falsy value 0, in which
case it is 1.0; likewise `V_ml` with default 100.0.  With mass `"2.5"` and
volume `"50"` every draft carries 2.5 and 50; with mass `""` and volume
`"abc"` every draft carries 1.0 and 100.0. -/
theorem sampleMass_volumeMl_defaulting (baseName m r mass volume now : Str) :
    (∀ d ∈ generateSeriesProbes baseName m r mass volume now,
      ((jsParseFloat mass = .nan ∨ jsParseFloat mass = .num 0) →
        d.sample_mass = .num 1) ∧
      (∀ q : ℚ, q ≠ 0 → jsParseFloat mass = .num q → d.sample_mass = .num q) ∧
      ((jsParseFloat volume = .nan ∨ jsParseFloat volume = .num 0) →
        d.V_ml = .num 100) ∧
      (∀ q : ℚ, q ≠ 0 → jsParseFloat volume = .num q → d.V_ml = .num q))
  ∧ (generateSeriesProbes baseName m r (str "2.5") (str "50") now).map
      SeriesProbeDraft.sample_mass = List.replicate 16 (.num (mkRat 5 2))
  ∧ (generateSeriesProbes baseName m r (str "2.5") (str "50") now).map
      SeriesProbeDraft.V_ml = List.replicate 16 (.num 50)
  ∧ (generateSeriesProbes baseName m r (str "") (str "abc") now).map
      SeriesProbeDraft.sample_mass = List.replicate 16 (.num 1)
  ∧ (generateSeriesProbes baseName m r (str "") (str "abc") now).map
      SeriesProbeDraft.V_ml = List.replicate 16 (.num 100) := by
  refine ⟨?_, rfl, rfl, rfl, rfl⟩
  intro d hd
  simp only [generateSeriesProbes, List.mem_map] at hd
  obtain ⟨t, ht, rfl⟩ := hd
  refine ⟨?_, ?_, ?_, ?_⟩
  · rintro (h | h) <;> simp [jsOrDefault, jsFalsy, h]
  · intro q hq h
    simp [jsOrDefault, jsFalsy, h, hq]
  · rintro (h | h) <;> simp [jsOrDefault, jsFalsy, h]
  · intro q hq h
    simp [jsOrDefault, jsFalsy, h, hq]

/-- Witness for the amended C4: with mass `""` the first draft's
`sample_mass` is 1.0. -/
theorem sampleMass_volumeMl_defaulting_witness :
    ((generateSeriesProbes (str "T2-4C1") (str "4") (str "1") (str "") (str "abc")
        []).headI).sample_mass = .num 1 :=
  ((sampleMass_volumeMl_defaulting (str "T2-4C1") (str "4") (str "1") (str "")
      (str "abc") []).1 _ (by decide)).1 (Or.inl (by decide))

/-- C5: every generated draft carries the constant fields: `is_series` true,
`series_base` and the second tag built from the parsed full name, the method
number copied over, `status_id` 1, `priority` 1, Fe = Ni = Cu = 0, and
exactly the two tags in order. -/
theorem draft_constant_fields (p : ParsedName) (mass volume now : Str) :
    ∀ d ∈ generateSeriesProbes p.fullName p.methodNumber p.repeatNumber mass volume now,
      d.is_series = true ∧ d.series_base = p.fullName ∧
      d.method_number = p.methodNumber ∧ d.status_id = 1 ∧ d.priority = 1 ∧
      d.Fe = 0 ∧ d.Ni = 0 ∧ d.Cu = 0 ∧
      d.tags = [str "методика_" ++ p.methodNumber, str "серия_" ++ p.fullName] := by
  intro d hd
  simp only [generateSeriesProbes, List.mem_map] at hd
  obtain ⟨t, ht, rfl⟩ := hd
  exact ⟨rfl, rfl, rfl, rfl, rfl, rfl, rfl, rfl, rfl⟩

/-- Witness for C5: the tag pair of the first draft of the `"T2-4C1"`
series. -/
theorem draft_constant_fields_witness :
    ((generateSeriesProbes (str "T2-4C1") (str "4") (str "1") (str "2.5") (str "50")
        []).headI).tags = [str "методика_4", str "серия_T2-4C1"] :=
  (draft_constant_fields ⟨str "T2-4C1", str "4", str "1", true⟩ (str "2.5") (str "50")
    [] _ (by decide)).2.2.2.2.2.2.2.2

/-- C6: `generateSeriesProbes` is total — for every input it returns the
full 16-draft list (every primitive it uses is a total function in the
embedding) — and the only error in the component is the `InvalidNameFormat`
message, produced solely by `parseProbeName`. -/
theorem generateSeries_total_single_error :
    (∀ baseName m r mass volume now : Str,
      (generateSeriesProbes baseName m r mass volume now).length = 16)
  ∧ (∀ s e : Str, parseProbeName s = .error e → e = errInvalidName) :=
  ⟨fun _ _ _ _ _ _ => rfl, fun s e h => parseProbeName_error_msg s e h⟩

/-- Witness for C6: a concrete run returns 16 drafts, and the error raised
on the non-matching input `"abc"` is the `InvalidNameFormat` message. -/
theorem generateSeries_total_single_error_witness :
    (generateSeriesProbes (str "T2-4C1") (str "4") (str "1") (str "2.5") (str "50")
        []).length = 16 ∧ errInvalidName = errInvalidName :=
  ⟨generateSeries_total_single_error.1 (str "T2-4C1") (str "4") (str "1") (str "2.5")
      (str "50") [],
    generateSeries_total_single_error.2 (str "abc") errInvalidName rfl⟩

/-- C7: both composed operations parse the (trimmed, non-empty) base name
first; when parsing fails the `InvalidNameFormat` error is surfaced
unchanged and no drafts appear in the outcome, and when parsing succeeds
all 16 drafts are produced for preview or for the request body. -/
theorem preview_create_surface_parse_result (b mass volume now : Str)
    (hne : trimJs b ≠ []) :
    (∀ e, parseProbeName (trimJs b) = .error e →
      updateSeriesPreview b mass volume now = .showError e ∧
      createSeries b mass volume now = .errorAlert e ∧ e = errInvalidName)
  ∧ (∀ p, parseProbeName (trimJs b) = .ok p →
      updateSeriesPreview b mass volume now =
        .showProbes (generateSeriesProbes p.fullName p.methodNumber p.repeatNumber
          mass volume now) ∧
      createSeries b mass volume now =
        .request ⟨p.fullName, p.methodNumber, p.repeatNumber, jsParseFloat mass,
          jsParseFloat volume,
          generateSeriesProbes p.fullName p.methodNumber p.repeatNumber mass volume now⟩ ∧
      (generateSeriesProbes p.fullName p.methodNumber p.repeatNumber mass volume
        now).length = 16) := by
  constructor
  · intro e he
    refine ⟨?_, ?_, parseProbeName_error_msg _ e he⟩
    · unfold updateSeriesPreview
      rw [if_neg hne, he]
    · unfold createSeries
      rw [if_neg hne, he]
  · intro p hp
    refine ⟨?_, ?_, rfl⟩
    · unfold updateSeriesPreview
      rw [if_neg hne, hp]
    · unfold createSeries
      rw [if_neg hne, hp]

/-- Witness for C7: the preview for `"T2-4C1"` shows the generated drafts. -/
theorem preview_create_surface_parse_result_witness :
    updateSeriesPreview (str "T2-4C1") (str "2.5") (str "50") [] =
      .showProbes (generateSeriesProbes (str "T2-4C1") (str "4") (str "1") (str "2.5")
        (str "50") []) :=
  ((preview_create_surface_parse_result (str "T2-4C1") (str "2.5") (str "50") []
      (by decide)).2 ⟨str "T2-4C1", str "4", str "1", true⟩ rfl).1

/-- C9: no generated draft name is itself a valid base name — every template
inserts a letter that breaks the `^T2-(\d+)C(\d+)$` shape, so re-parsing any
of the sixteen generated names fails with `InvalidNameFormat`. -/
theorem generated_names_not_reparseable (m r : Str) (hm1 : m ≠ [])
    (hm : ∀ c ∈ m, c.isDigit) (hr1 : r ≠ []) (hr : ∀ c ∈ r, c.isDigit)
    (baseName mass volume now : Str) :
    ∀ d ∈ generateSeriesProbes baseName m r mass volume now,
      parseProbeName d.name = .error errInvalidName := by
  intro d hd
  simp only [generateSeriesProbes, List.mem_map] at hd
  obtain ⟨t, ht, rfl⟩ := hd
  show parseProbeName (substTemplate m r t) = .error errInvalidName
  simp only [templates, List.mem_cons, List.not_mem_nil, or_false] at ht
  rcases ht with rfl | rfl | rfl | rfl | rfl | rfl | rfl | rfl | rfl | rfl | rfl | rfl |
    rfl | rfl | rfl | rfl
  · exact name_fail_of_AB m r _ hm 'A' (by decide) (by decide) (by decide) rfl
  · exact name_fail_of_AB m r _ hm 'B' (by decide) (by decide) (by decide) rfl
  · exact name_fail_of_L m r _ _ rfl
  · exact name_fail_of_L m r _ _ rfl
  · exact name_fail_of_L m r _ _ rfl
  · exact name_fail_of_L m r _ _ rfl
  · exact name_fail_of_L m r _ _ rfl
  · exact name_fail_of_L m r _ _ rfl
  · exact name_fail_of_L m r _ _ rfl
  · exact name_fail_of_L m r _ _ rfl
  · exact name_fail_of_L m r _ _ rfl
  · exact name_fail_of_L m r _ _ rfl
  · exact name_fail_of_L m r _ _ rfl
  · exact name_fail_of_L m r _ _ rfl
  · exact name_fail_of_L m r _ _ rfl
  · exact name_fail_of_L m r _ _ rfl

/-- Witness for C9: the first draft name of the `"T2-4C1"` series,
`"T2-4A1"`, does not parse. -/
theorem generated_names_not_reparseable_witness :
    parseProbeName ((generateSeriesProbes (str "T2-4C1") (str "4") (str "1") (str "2.5")
        (str "50") []).headI).name = .error errInvalidName :=
  generated_names_not_reparseable (str "4") (str "1") (by decide) (by decide)
    (by decide) (by decide) (str "T2-4C1") (str "2.5") (str "50") [] _ (by decide)

/-- C10: the POST body built by `createSeries` carries the bare
`parseFloat` of the mass and volume fields with no fallback — NaN for empty
or non-numeric input, serialised as `null` by `JSON.stringify` — while every
draft inside `probes` still carries the defaulted 1.0 / 100.0, so the two
levels disagree. -/
theorem createSeries_toplevel_no_default (mass volume now : Str)
    (hm : jsParseFloat mass = .nan) (hv : jsParseFloat volume = .nan) :
    ∃ body : SeriesRequest,
      createSeries (str "T2-4C1") mass volume now = .request body ∧
      body.mass = .nan ∧ body.volume = .nan ∧
      jsonNum body.mass = none ∧ jsonNum body.volume = none ∧
      body.probes.map SeriesProbeDraft.sample_mass = List.replicate 16 (.num 1) ∧
      body.probes.map SeriesProbeDraft.V_ml = List.replicate 16 (.num 100) ∧
      ∀ d ∈ body.probes, body.mass ≠ d.sample_mass ∧ body.volume ≠ d.V_ml := by
  refine ⟨⟨str "T2-4C1", str "4", str "1", jsParseFloat mass, jsParseFloat volume,
    generateSeriesProbes (str "T2-4C1") (str "4") (str "1") mass volume now⟩,
    rfl, hm, hv, by rw [hm]; rfl, by rw [hv]; rfl, ?_, ?_, ?_⟩
  · simp [generateSeriesProbes, templates, hm, jsOrDefault, jsFalsy, List.replicate]
  · simp [generateSeriesProbes, templates, hv, jsOrDefault, jsFalsy, List.replicate]
  · intro d hd
    simp only [generateSeriesProbes, List.mem_map] at hd
    obtain ⟨t, ht, rfl⟩ := hd
    rw [hm, hv]
    simp [jsOrDefault, jsFalsy, hm, hv]

/-- Witness for C10 at the concrete inputs mass `""`, volume `"abc"`. -/
theorem createSeries_toplevel_no_default_witness :
    ∃ body : SeriesRequest,
      createSeries (str "T2-4C1") (str "") (str "abc") [] = .request body ∧
      body.mass = .nan ∧ body.volume = .nan ∧
      jsonNum body.mass = none ∧ jsonNum body.volume = none ∧
      body.probes.map SeriesProbeDraft.sample_mass = List.replicate 16 (.num 1) ∧
      body.probes.map SeriesProbeDraft.V_ml = List.replicate 16 (.num 100) ∧
      ∀ d ∈ body.probes, body.mass ≠ d.sample_mass ∧ body.volume ≠ d.V_ml :=
  createSeries_toplevel_no_default (str "") (str "abc") [] (by decide) (by decide)
